import Mathlib

/-
Verification of the natural-language specification of
`scripts/email_sender.py` (wm-incubator-stats-superset) against a shallow
embedding of the function `send_graduation_alert`.

The Python function is a single linear sequence: format a subject and a
body from its arguments, build a MIME message, then inside a
try/except block open an SMTP connection (a `with` block, whose exit
closes the connection unconditionally), send the message, and log.
`except smtplib.SMTPException` logs an SMTP-specific error record;
`except Exception` logs a generic error record; both return `False`.
The success path logs one informational record and returns `True`.

The embedding is parametrised by an `Outcome` describing what the
transport layer does during the try block: success, an exception raised
while establishing the connection (before any connection exists), or an
exception raised after the connection was opened.  Each exception
carries its kind — `smtp` for `smtplib.SMTPException` (protocol error,
relay rejection) and `other` for any other `Exception` (for instance the
`OSError` of a refused or timed-out connection) — plus its detail
string (the text interpolated as the f-string field of the log call).
The function returns the boolean result together with the emitted log
records and the trace of connection actions.
-/

namespace WmIncubator

/-- Substring machinery.  `matchesAt pat s` holds when `pat` is an initial
segment of `s`. -/
def matchesAt : List Char → List Char → Bool
  | [], _ => true
  | _ :: _, [] => false
  | a :: as, b :: bs => a == b && matchesAt as bs

/-- Whether the pattern occurs somewhere in the character list. -/
def hasSub (pat : List Char) : List Char → Bool
  | [] => matchesAt pat []
  | b :: bs => matchesAt pat (b :: bs) || hasSub pat bs

/-- Number of positions of the character list at which the pattern occurs. -/
def subOcc (pat : List Char) : List Char → Nat
  | [] => if matchesAt pat [] then 1 else 0
  | b :: bs => (if matchesAt pat (b :: bs) then 1 else 0) + subOcc pat bs

/-- String-level substring test: `strHas s pat` holds when `pat` occurs in
`s`. -/
def strHas (s pat : String) : Bool :=
  hasSub pat.data s.data

/-- String-level occurrence count: at how many character positions of `s`
the pattern `pat` occurs. -/
def subCount (s pat : String) : Nat :=
  subOcc pat.data s.data

theorem matchesAt_self_append (p t : List Char) : matchesAt p (p ++ t) = true := by
  induction p with
  | nil => rfl
  | cons a as ih => simp [matchesAt, ih]

theorem hasSub_self_append (p t : List Char) : hasSub p (p ++ t) = true := by
  cases p with
  | nil => cases t <;> simp [hasSub, matchesAt]
  | cons c cs =>
      show hasSub (c :: cs) (c :: (cs ++ t)) = true
      have h := matchesAt_self_append (c :: cs) t
      simp only [List.cons_append] at h
      simp [hasSub, h]

theorem hasSub_append_left (p a t : List Char) (h : hasSub p t = true) :
    hasSub p (a ++ t) = true := by
  induction a with
  | nil => simpa using h
  | cons x xs ih => simp [hasSub, ih]

/-- If the character data of `s` decomposes as `pre ++ pat ++ post`, then
`pat` occurs in `s`. -/
theorem strHas_parts (s pre pat post : String)
    (h : s.data = pre.data ++ (pat.data ++ post.data)) : strHas s pat = true := by
  unfold strHas
  rw [h]
  exact hasSub_append_left _ _ _ (hasSub_self_append _ _)

/-- AlertRequest: the nine arguments of `send_graduation_alert`, with the
Toolforge defaults of the Python signature.  The counts are integers; the
code performs no range validation, so negative values are representable. -/
structure AlertRequest where
  project_type : String
  language_code : String
  active_users : Int
  edits : Int
  consecutive_months_met_criteria : Int
  recipient_email : String
  sender_email : String
  smtp_server : String := "mail.tools.wmcloud.org"
  smtp_port : Int := 25
deriving DecidableEq

/-- The subject f-string of line 40 of `email_sender.py`. -/
def subject (project_type language_code : String) : String :=
  "Wikimedia Incubator - Project potentially close to graduation: " ++
    project_type ++ " (" ++ language_code ++ ")"

/-- The body f-string of lines 41 to 58 of `email_sender.py` (a
triple-quoted string opening and closing with a newline).  Integer fields
are rendered as Python `str(int)` does, which agrees with `toString` on
`Int`. -/
def body (project_type language_code : String)
    (active_users edits consecutive_months_met_criteria : Int) : String :=
  "\nDear LangCom,\n\nThis is an automated alert to inform you that the project for **" ++
    project_type ++ " (" ++ language_code ++
    ")**\nappears to have met the minimum criteria for potential graduation from the Incubator.\n\nBased on recent metrics, the project has shown consistent activity:\n- Active Users (last month): " ++
    toString active_users ++ "\n- Edits (last month): " ++ toString edits ++
    "\n- Consecutive Months Meeting Criteria (at least 4 active users with 15 edits): " ++
    toString consecutive_months_met_criteria ++
    "\n\nPlease review the project\x27s status and consider it for graduation.\n\nThis alert was generated by the Incubator Dashboard monitoring system.\n\nBest regards,\nIncubator Dashboard Alerts\n"

/-- The MIMEText message built on lines 60 to 63: UTF-8 plain text body
with Subject, From and To headers. -/
structure MimeMessage where
  subject : String
  from_addr : String
  to_addr : String
  body : String
  subtype : String
  charset : String
deriving DecidableEq

/-- Message construction, lines 40 to 63 of the source: subject and body
from the five metric fields, headers from the addresses. -/
def formatMessage (r : AlertRequest) : MimeMessage :=
  ⟨subject r.project_type r.language_code,
   r.sender_email,
   r.recipient_email,
   body r.project_type r.language_code r.active_users r.edits
     r.consecutive_months_met_criteria,
   "plain",
   "utf-8"⟩

/-- Kind of exception raised inside the try block: `smtp` for
`smtplib.SMTPException`, `other` for any other `Exception`. -/
inductive ExnKind where
  | smtp
  | other
deriving DecidableEq

/-- What the transport layer does during the try block of lines 65 to 68. -/
inductive Outcome where
  | ok
  | connectRaise (kind : ExnKind) (detail : String)
  | sendRaise (kind : ExnKind) (detail : String)
deriving DecidableEq

/-- A record emitted through the module logger: `logger.info` or
`logger.error`. -/
inductive LogRecord where
  | info (msg : String)
  | error (msg : String)
deriving DecidableEq

/-- Observable transport-layer actions of one call. -/
inductive ConnAction where
  | connectAttempt (server : String) (port : Int)
  | openConn
  | sendMsg (msg : MimeMessage)
  | closeConn
deriving DecidableEq

/-- The observable result of one call: the returned boolean, the log
records emitted, and the trace of connection actions. -/
structure SendResult where
  success : Bool
  logs : List LogRecord
  actions : List ConnAction
deriving DecidableEq

/-- The informational record of lines 69 to 72. -/
def successMsg (r : AlertRequest) : String :=
  "Successfully sent graduation alert for \x27" ++ r.project_type ++ " (" ++
    r.language_code ++ ")\x27 to " ++ r.recipient_email ++ " from " ++
    r.sender_email ++ " using Toolforge SMTP."

/-- The SMTP-exception error record of lines 75 to 77. -/
def smtpErrorMsg (r : AlertRequest) (detail : String) : String :=
  "SMTP error sending alert for \x27" ++ r.project_type ++ " (" ++
    r.language_code ++ ")\x27 with Toolforge SMTP: " ++ detail

/-- The catch-all error record of lines 80 to 82. -/
def unexpectedErrorMsg (r : AlertRequest) (detail : String) : String :=
  "An unexpected error occurred while sending alert for \x27" ++
    r.project_type ++ " (" ++ r.language_code ++
    ")\x27 with Toolforge SMTP: " ++ detail

/-- The error record emitted for an exception of the given kind: the
SMTP-specific handler for `smtplib.SMTPException`, the generic handler for
every other `Exception`. -/
def errorRecordFor (r : AlertRequest) (kind : ExnKind) (detail : String) : LogRecord :=
  match kind with
  | .smtp => .error (smtpErrorMsg r detail)
  | .other => .error (unexpectedErrorMsg r detail)

/-- Shallow embedding of `send_graduation_alert`.  Formatting (lines 40 to
63) is unconditional; the try block is resolved by the outcome.  A `with`
block closes the connection on every exit once it has been opened; an
exception raised while establishing the connection leaves no connection to
close. -/
def send_graduation_alert (r : AlertRequest) (o : Outcome) : SendResult :=
  let msg := formatMessage r
  match o with
  | .ok =>
      ⟨true, [.info (successMsg r)],
       [.connectAttempt r.smtp_server r.smtp_port, .openConn, .sendMsg msg, .closeConn]⟩
  | .connectRaise kind detail =>
      ⟨false, [errorRecordFor r kind detail],
       [.connectAttempt r.smtp_server r.smtp_port]⟩
  | .sendRaise kind detail =>
      ⟨false, [errorRecordFor r kind detail],
       [.connectAttempt r.smtp_server r.smtp_port, .openConn, .sendMsg msg, .closeConn]⟩

/-- A concrete request used by witnesses and counterexamples. -/
def sampleReq : AlertRequest :=
  ⟨"Quechua Wikipedia", "qu", 6, 42, 4, "recipient@example.org",
   "sender@example.org", "mail.tools.wmcloud.org", 25⟩

/-- A second concrete request: the same five metric fields as `sampleReq`
but different recipient, sender, relay host and relay port. -/
def sampleReqAlt : AlertRequest :=
  ⟨"Quechua Wikipedia", "qu", 6, 42, 4, "other@example.net",
   "else@example.net", "smtp.example.net", 587⟩

/-- The error record of either exception handler carries the exception
detail as a substring. -/
theorem errorRecordFor_has_detail (r : AlertRequest) (k : ExnKind) (d : String) :
    ∃ m, errorRecordFor r k d = .error m ∧ strHas m d = true := by
  cases k with
  | smtp =>
      refine ⟨smtpErrorMsg r d, rfl, ?_⟩
      exact strHas_parts _
        ("SMTP error sending alert for \x27" ++ r.project_type ++ " (" ++
          r.language_code ++ ")\x27 with Toolforge SMTP: ") _ ""
        (by simp [smtpErrorMsg, String.data_append, List.append_assoc])
  | other =>
      refine ⟨unexpectedErrorMsg r d, rfl, ?_⟩
      exact strHas_parts _
        ("An unexpected error occurred while sending alert for \x27" ++
          r.project_type ++ " (" ++ r.language_code ++
          ")\x27 with Toolforge SMTP: ") _ ""
        (by simp [unexpectedErrorMsg, String.data_append, List.append_assoc])

/-- C1 (counterexample): with a concrete request and an SMTP-level
transport failure, the single error log record does not contain the
recipient address, nor the sender address, so it does not name them as the
claim requires. -/
theorem smtp_error_log_omits_addresses :
    (send_graduation_alert sampleReq (.sendRaise .smtp "boom")).logs =
      [.error (smtpErrorMsg sampleReq "boom")] ∧
    strHas (smtpErrorMsg sampleReq "boom") sampleReq.recipient_email = false ∧
    strHas (smtpErrorMsg sampleReq "boom") sampleReq.sender_email = false := by
  refine ⟨rfl, ?_, ?_⟩ <;> decide

/-- C1 (amended): on every transport-level failure — connection refusal
(an OSError, handled by the generic handler), protocol error or relay
rejection (an SMTPException, handled by the SMTP handler), raised while
connecting or while sending — the single error log record emitted names
the project type, the language code and the error detail; it does not
include the recipient or sender address. -/
theorem transport_error_log_contents (r : AlertRequest) (k : ExnKind) (d : String) :
    ∃ m,
      (send_graduation_alert r (.connectRaise k d)).logs = [.error m] ∧
      (send_graduation_alert r (.sendRaise k d)).logs = [.error m] ∧
      strHas m r.project_type = true ∧
      strHas m r.language_code = true ∧
      strHas m d = true := by
  cases k with
  | smtp =>
      refine ⟨smtpErrorMsg r d, rfl, rfl, ?_, ?_, ?_⟩
      · exact strHas_parts _ "SMTP error sending alert for \x27" _
          (" (" ++ r.language_code ++ ")\x27 with Toolforge SMTP: " ++ d)
          (by simp [smtpErrorMsg, String.data_append, List.append_assoc])
      · exact strHas_parts _
          ("SMTP error sending alert for \x27" ++ r.project_type ++ " (") _
          (")\x27 with Toolforge SMTP: " ++ d)
          (by simp [smtpErrorMsg, String.data_append, List.append_assoc])
      · exact strHas_parts _
          ("SMTP error sending alert for \x27" ++ r.project_type ++ " (" ++
            r.language_code ++ ")\x27 with Toolforge SMTP: ") _ ""
          (by simp [smtpErrorMsg, String.data_append, List.append_assoc])
  | other =>
      refine ⟨unexpectedErrorMsg r d, rfl, rfl, ?_, ?_, ?_⟩
      · exact strHas_parts _
          "An unexpected error occurred while sending alert for \x27" _
          (" (" ++ r.language_code ++ ")\x27 with Toolforge SMTP: " ++ d)
          (by simp [unexpectedErrorMsg, String.data_append, List.append_assoc])
      · exact strHas_parts _
          ("An unexpected error occurred while sending alert for \x27" ++
            r.project_type ++ " (") _
          (")\x27 with Toolforge SMTP: " ++ d)
          (by simp [unexpectedErrorMsg, String.data_append, List.append_assoc])
      · exact strHas_parts _
          ("An unexpected error occurred while sending alert for \x27" ++
            r.project_type ++ " (" ++ r.language_code ++
            ")\x27 with Toolforge SMTP: ") _ ""
          (by simp [unexpectedErrorMsg, String.data_append, List.append_assoc])

/-- C2: a non-SMTP failure during the try block — whether raised while
establishing the connection (such as a refused or timed-out connection)
or while sending — is caught by the generic handler, logged with the
generic error record, and converted into a false return value; in every
outcome the call returns a boolean and exactly one log record, so no
exception reaches the caller (the embedding is a total function).
Formatting itself (string interpolation over text and integer fields) is
total and cannot fail. -/
theorem unexpected_failures_absorbed (r : AlertRequest) (d : String) :
    (send_graduation_alert r (.connectRaise .other d)).success = false ∧
    (send_graduation_alert r (.connectRaise .other d)).logs =
      [.error (unexpectedErrorMsg r d)] ∧
    (send_graduation_alert r (.sendRaise .other d)).success = false ∧
    (send_graduation_alert r (.sendRaise .other d)).logs =
      [.error (unexpectedErrorMsg r d)] ∧
    (∀ o : Outcome, (send_graduation_alert r o).logs.length = 1) := by
  refine ⟨rfl, rfl, rfl, rfl, ?_⟩
  intro o
  cases o <;> rfl

/-- C3: on every failing outcome — the relay refuses or aborts the
connection attempt, or raises a protocol error during the exchange — the
function returns false and emits exactly one error log record, and that
record contains the transport failure detail. -/
theorem transport_failure_returns_false (r : AlertRequest) (k : ExnKind) (d : String) :
    ((send_graduation_alert r (.connectRaise k d)).success = false ∧
      ∃ m, (send_graduation_alert r (.connectRaise k d)).logs = [.error m] ∧
        strHas m d = true) ∧
    ((send_graduation_alert r (.sendRaise k d)).success = false ∧
      ∃ m, (send_graduation_alert r (.sendRaise k d)).logs = [.error m] ∧
        strHas m d = true) := by
  obtain ⟨m, hm, hd⟩ := errorRecordFor_has_detail r k d
  refine ⟨⟨rfl, ⟨m, ?_, hd⟩⟩, ⟨rfl, ⟨m, ?_, hd⟩⟩⟩ <;>
    simp [send_graduation_alert, hm]

/-- C4: when the relay accepts and acknowledges the message, the function
returns true and emits exactly one informational log record, and that
record names the project type, the language code, the recipient address
and the sender address. -/
theorem success_path (r : AlertRequest) :
    (send_graduation_alert r .ok).success = true ∧
    (send_graduation_alert r .ok).logs = [.info (successMsg r)] ∧
    strHas (successMsg r) r.project_type = true ∧
    strHas (successMsg r) r.language_code = true ∧
    strHas (successMsg r) r.recipient_email = true ∧
    strHas (successMsg r) r.sender_email = true := by
  refine ⟨rfl, rfl, ?_, ?_, ?_, ?_⟩
  · exact strHas_parts _ "Successfully sent graduation alert for \x27" _
      (" (" ++ r.language_code ++ ")\x27 to " ++ r.recipient_email ++
        " from " ++ r.sender_email ++ " using Toolforge SMTP.")
      (by simp [successMsg, String.data_append, List.append_assoc])
  · exact strHas_parts _
      ("Successfully sent graduation alert for \x27" ++ r.project_type ++ " (") _
      (")\x27 to " ++ r.recipient_email ++ " from " ++ r.sender_email ++
        " using Toolforge SMTP.")
      (by simp [successMsg, String.data_append, List.append_assoc])
  · exact strHas_parts _
      ("Successfully sent graduation alert for \x27" ++ r.project_type ++
        " (" ++ r.language_code ++ ")\x27 to ") _
      (" from " ++ r.sender_email ++ " using Toolforge SMTP.")
      (by simp [successMsg, String.data_append, List.append_assoc])
  · exact strHas_parts _
      ("Successfully sent graduation alert for \x27" ++ r.project_type ++
        " (" ++ r.language_code ++ ")\x27 to " ++ r.recipient_email ++
        " from ") _ " using Toolforge SMTP."
      (by simp [successMsg, String.data_append, List.append_assoc])

/-- C5 (counterexample): with project type "a" and language code "qu", the
pattern "a" occurs at six positions of the produced subject — the fixed
template text itself contains the letter — so the subject does not contain
the given project type exactly once. -/
theorem subject_occurrence_not_unique :
    subject "a" "qu" =
      "Wikimedia Incubator - Project potentially close to graduation: a (qu)" ∧
    subCount (subject "a" "qu") "a" = 6 ∧
    ¬ subCount (subject "a" "qu") "a" = 1 := by
  refine ⟨by decide, by decide, by decide⟩

/-- C5 (amended): the subject is exactly the fixed template with the given
project type and language code substituted, so it contains each at least
once and unmodified (exactly once need not hold, since the inputs may also
occur in the template text); with project type "Quechua Wikipedia" and
language code "qu" the subject ends with "Project potentially close to
graduation: Quechua Wikipedia (qu)" and contains each input exactly
once. -/
theorem subject_template (pt lc : String) :
    subject pt lc =
      "Wikimedia Incubator - Project potentially close to graduation: " ++
        pt ++ " (" ++ lc ++ ")" ∧
    strHas (subject pt lc) pt = true ∧
    strHas (subject pt lc) lc = true ∧
    subject "Quechua Wikipedia" "qu" =
      "Wikimedia Incubator - " ++
        "Project potentially close to graduation: Quechua Wikipedia (qu)" ∧
    subCount (subject "Quechua Wikipedia" "qu") "Quechua Wikipedia" = 1 ∧
    subCount (subject "Quechua Wikipedia" "qu") "qu" = 1 := by
  refine ⟨rfl, ?_, ?_, by decide, by decide, by decide⟩
  · exact strHas_parts _
      "Wikimedia Incubator - Project potentially close to graduation: " _
      (" (" ++ lc ++ ")")
      (by simp [subject, String.data_append, List.append_assoc])
  · exact strHas_parts _
      ("Wikimedia Incubator - Project potentially close to graduation: " ++
        pt ++ " (") _ ")"
      (by simp [subject, String.data_append, List.append_assoc])

set_option maxRecDepth 100000 in
/-- C6: the body contains the decimal renderings of the active user
count, the edit count and the consecutive month count; with the example
inputs 6, 42 and 4 it contains the three expected metric lines. -/
theorem body_metrics (pt lc : String) (au ed cm : Int) :
    strHas (body pt lc au ed cm) (toString au) = true ∧
    strHas (body pt lc au ed cm) (toString ed) = true ∧
    strHas (body pt lc au ed cm) (toString cm) = true ∧
    strHas (body "Quechua Wikipedia" "qu" 6 42 4)
      "Active Users (last month): 6" = true ∧
    strHas (body "Quechua Wikipedia" "qu" 6 42 4)
      "Edits (last month): 42" = true ∧
    strHas (body "Quechua Wikipedia" "qu" 6 42 4)
      "Consecutive Months Meeting Criteria (at least 4 active users with 15 edits): 4" = true := by
  refine ⟨?_, ?_, ?_, by decide, by decide, by decide⟩
  · exact strHas_parts _
      ("\nDear LangCom,\n\nThis is an automated alert to inform you that the project for **" ++
        pt ++ " (" ++ lc ++
        ")**\nappears to have met the minimum criteria for potential graduation from the Incubator.\n\nBased on recent metrics, the project has shown consistent activity:\n- Active Users (last month): ")
      _
      ("\n- Edits (last month): " ++ toString ed ++
        "\n- Consecutive Months Meeting Criteria (at least 4 active users with 15 edits): " ++
        toString cm ++
        "\n\nPlease review the project\x27s status and consider it for graduation.\n\nThis alert was generated by the Incubator Dashboard monitoring system.\n\nBest regards,\nIncubator Dashboard Alerts\n")
      (by simp [body, String.data_append, List.append_assoc])
  · exact strHas_parts _
      ("\nDear LangCom,\n\nThis is an automated alert to inform you that the project for **" ++
        pt ++ " (" ++ lc ++
        ")**\nappears to have met the minimum criteria for potential graduation from the Incubator.\n\nBased on recent metrics, the project has shown consistent activity:\n- Active Users (last month): " ++
        toString au ++ "\n- Edits (last month): ")
      _
      ("\n- Consecutive Months Meeting Criteria (at least 4 active users with 15 edits): " ++
        toString cm ++
        "\n\nPlease review the project\x27s status and consider it for graduation.\n\nThis alert was generated by the Incubator Dashboard monitoring system.\n\nBest regards,\nIncubator Dashboard Alerts\n")
      (by simp [body, String.data_append, List.append_assoc])
  · exact strHas_parts _
      ("\nDear LangCom,\n\nThis is an automated alert to inform you that the project for **" ++
        pt ++ " (" ++ lc ++
        ")**\nappears to have met the minimum criteria for potential graduation from the Incubator.\n\nBased on recent metrics, the project has shown consistent activity:\n- Active Users (last month): " ++
        toString au ++ "\n- Edits (last month): " ++ toString ed ++
        "\n- Consecutive Months Meeting Criteria (at least 4 active users with 15 edits): ")
      _
      "\n\nPlease review the project\x27s status and consider it for graduation.\n\nThis alert was generated by the Incubator Dashboard monitoring system.\n\nBest regards,\nIncubator Dashboard Alerts\n"
      (by simp [body, String.data_append, List.append_assoc])

/-- C7: whenever a call opens a connection, its trace is exactly one
connection attempt, one open, one message transmission and one close — the
connection is released before the function returns, on the success path
and on every failure path, and it is opened at most once per call. -/
theorem connection_scoped (r : AlertRequest) (o : Outcome)
    (h : ConnAction.openConn ∈ (send_graduation_alert r o).actions) :
    (send_graduation_alert r o).actions =
      [.connectAttempt r.smtp_server r.smtp_port, .openConn,
       .sendMsg (formatMessage r), .closeConn] := by
  cases o with
  | ok => rfl
  | connectRaise k d => simp [send_graduation_alert] at h
  | sendRaise k d => rfl

/-- C7 witness: the success outcome opens a connection, and its trace ends
by closing it. -/
theorem connection_scoped_witness :
    (send_graduation_alert sampleReq .ok).actions =
      [.connectAttempt sampleReq.smtp_server sampleReq.smtp_port, .openConn,
       .sendMsg (formatMessage sampleReq), .closeConn] :=
  connection_scoped sampleReq .ok (by decide)

/-- C8: no input validation: for every request — the counts range over all
integers, negative ones included, and the addresses over all strings,
malformed ones included — and every outcome, the first action of the call
is the connection attempt to the relay: the function formats the message
from the given fields and reaches the transport layer, with no early
return. -/
theorem no_input_validation (r : AlertRequest) (o : Outcome) :
    (send_graduation_alert r o).actions.head? =
      some (.connectAttempt r.smtp_server r.smtp_port) ∧
    (formatMessage r).subject = subject r.project_type r.language_code ∧
    (formatMessage r).body =
      body r.project_type r.language_code r.active_users r.edits
        r.consecutive_months_met_criteria := by
  cases o <;> exact ⟨rfl, rfl, rfl⟩

/-- C9: message formatting is deterministic: two invocations of the
formatting step on identical arguments produce identical subject and body
strings. -/
theorem formatting_deterministic (r1 r2 : AlertRequest) (h : r1 = r2) :
    (formatMessage r1).subject = (formatMessage r2).subject ∧
    (formatMessage r1).body = (formatMessage r2).body := by
  subst h
  exact ⟨rfl, rfl⟩

/-- C9 witness: the formatting step applied twice to the sample request. -/
theorem formatting_deterministic_witness :
    (formatMessage sampleReq).subject = (formatMessage sampleReq).subject ∧
    (formatMessage sampleReq).body = (formatMessage sampleReq).body :=
  formatting_deterministic sampleReq sampleReq rfl

/-- C10: the subject and body depend only on the five metric fields: two
requests agreeing on project type, language code, active users, edits and
consecutive months produce identical subject and body strings, whatever
their recipient, sender, relay host and relay port. -/
theorem message_independent_of_transport_fields (r1 r2 : AlertRequest)
    (h1 : r1.project_type = r2.project_type)
    (h2 : r1.language_code = r2.language_code)
    (h3 : r1.active_users = r2.active_users)
    (h4 : r1.edits = r2.edits)
    (h5 : r1.consecutive_months_met_criteria = r2.consecutive_months_met_criteria) :
    (formatMessage r1).subject = (formatMessage r2).subject ∧
    (formatMessage r1).body = (formatMessage r2).body := by
  constructor <;> simp [formatMessage, h1, h2, h3, h4, h5]

/-- C10 witness: two sample requests sharing the five metric fields but
differing in recipient, sender, relay host and relay port produce the same
subject and body. -/
theorem message_independent_witness :
    (formatMessage sampleReq).subject = (formatMessage sampleReqAlt).subject ∧
    (formatMessage sampleReq).body = (formatMessage sampleReqAlt).body :=
  message_independent_of_transport_fields sampleReq sampleReqAlt rfl rfl rfl rfl rfl

end WmIncubator
